import Mathlib

/-!
Shallow embedding of the 002_Fast_PGSQL backend slice (FastAPI + pydantic +
SQLAlchemy) for verification of its specification.

Conventions of the embedding:
* UUID values and timestamps are modelled as Nat; a JSON object (pydantic
  Dict, postgres jsonb) is modelled as an association list of strings.
* A Python value that may raise is modelled as Except PyErr; a pydantic
  model constructor call T() succeeds exactly when every declared field has
  a default, and raises pydantic.ValidationError otherwise (required fields
  missing).  pydantic.ValidationError is a subclass of ValueError.
* A Python try/except block around a body is modelled by a separate
  `..._body : ... → Except PyErr ...` function (the try block) plus the
  boundary function that pattern-matches on its result and applies the
  except handler to the error.
* Mutation of pydantic model attributes is modelled by functional record
  update; pydantic does not validate attribute assignment by default, which
  is why `validate_request` can meaningfully test `request.content == None`
  even though the field is declared `str`.
-/

/-- Python exceptions raised inside the embedded slice: plain ValueError
(raised explicitly by MapConv) and pydantic.ValidationError (raised by a
model constructor whose required fields are missing).  ValidationError is a
subclass of ValueError, so both are InvalidArgument-style errors. -/
inductive PyErr where
  | valueError (msg : String)
  | validationError (msg : String)
deriving DecidableEq, Repr

/-- str(ex): the text carried by the exception. -/
def PyErr.text : PyErr → String
  | .valueError m => m
  | .validationError m => m

/-- Values stored in the Message attribute of the response and model
wrappers: validators assign a plain string, the routers assign the dict
literal with the single key error on internal failure. -/
inductive PyVal where
  | str (s : String)
  | errDict (s : String)
deriving DecidableEq, Repr

/-- JSON-object metadata (pydantic Dict with string keys, postgres jsonb)
modelled as an association list. -/
abbrev Meta := List (String × String)

/-- Modelled from the spec: ItemBase from app/models/common/common_base.py,
which is absent from the retrieved sources.  Per the spec, a response item
carries status flags where is_invalid and message are mutually informative;
a freshly constructed item is not invalid and carries no message. -/
structure ItemBase where
  IsInvalid : Bool := false
  Message : Option PyVal := none
deriving DecidableEq, Repr

/-- Modelled from the spec: ModelBase from app/models/common/common_base.py,
which is absent from the retrieved sources.  Same status flags as ItemBase:
the per-call model wrapper carries the validation outcome. -/
structure ModelBase where
  IsInvalid : Bool := false
  Message : Option PyVal := none
deriving DecidableEq, Repr

/-- PromptRequest (prompt_model.py): every field Optional with default None. -/
structure PromptRequest where
  question : Option String := none
  context : Option String := none
  session_id : Option String := none
deriving DecidableEq, Repr

/-- pydantic call PromptRequest(): all fields have defaults, so construction
succeeds and yields the all-None request. -/
def PromptRequest.py_new : PromptRequest := {}

/-- PromptResponse (prompt_model.py), extending ItemBase. -/
structure PromptResponse extends ItemBase where
  response : Option String := none
  prompt_id : Option String := none
  model_name : Option String := none
  tokens_used : Option Int := none
deriving DecidableEq, Repr

/-- pydantic call PromptResponse(): all fields have defaults. -/
def PromptResponse.py_new : PromptResponse := {}

/-- PromptModel (prompt_model.py), extending ModelBase. -/
structure PromptModel extends ModelBase where
  request : Option PromptRequest := none
  response : Option PromptResponse := none
deriving DecidableEq, Repr

/-- pydantic call PromptModel(): all fields have defaults. -/
def PromptModel.py_new : PromptModel := {}

/-- Allowed roles (ai_message_model.py line 11), the same fixed set as the
database CHECK constraint. -/
inductive AiRole where
  | system
  | user
  | assistant
  | tool
deriving DecidableEq, Repr

/-- The text value of a role, as stored in the role column. -/
def AiRole.toText : AiRole → String
  | .system => "system"
  | .user => "user"
  | .assistant => "assistant"
  | .tool => "tool"

/-- pydantic validation of a raw string against the AiRole Literal
annotation: accepted exactly for the four enumerated strings, otherwise a
ValidationError.  The message text is representative. -/
def parse_ai_role (s : String) : Except PyErr AiRole :=
  if s = "system" then .ok .system
  else if s = "user" then .ok .user
  else if s = "assistant" then .ok .assistant
  else if s = "tool" then .ok .tool
  else .error (.validationError "Input should be system, user, assistant or tool")

/-- AiMessageRequest (ai_message_model.py lines 21-32).  content is declared
str in pydantic but the attribute slot can hold None (assignment is not
validated), and validate_request tests exactly that, so it is embedded as an
Option. -/
structure AiMessageRequest where
  message_id : Nat
  session_id : Nat
  tenant_id : String
  user_id : String
  role : AiRole
  content : Option String
  meta : Meta
  created_at : Nat
deriving DecidableEq, Repr

/-- pydantic call AiMessageRequest(): every one of the eight fields is
required (no default), so the bare constructor raises ValidationError.  The
message text is representative of str(ValidationError). -/
def AiMessageRequest.py_new : Except PyErr AiMessageRequest :=
  .error (.validationError "8 validation errors for AiMessageRequest: field required")

/-- AiMessageResponse (ai_message_model.py lines 34-45): same eight fields. -/
structure AiMessageResponse where
  message_id : Nat
  session_id : Nat
  tenant_id : String
  user_id : String
  role : AiRole
  content : Option String
  meta : Meta
  created_at : Nat
deriving DecidableEq, Repr

/-- AIMessageItem (ai_message_model.py lines 47-58), extending ItemBase. -/
structure AIMessageItem extends ItemBase where
  message_id : Nat
  session_id : Nat
  tenant_id : String
  user_id : String
  role : AiRole
  content : Option String
  meta : Meta
  created_at : Nat
deriving DecidableEq, Repr

/-- pydantic call AIMessageItem(): every one of the eight declared fields is
required (no default), so the bare constructor raises ValidationError. -/
def AIMessageItem.py_new : Except PyErr AIMessageItem :=
  .error (.validationError "8 validation errors for AIMessageItem: field required")

/-- AIMessageModel (ai_message_model.py lines 60-63), extending ModelBase;
all three fields Optional with default None. -/
structure AIMessageModel extends ModelBase where
  request : Option AiMessageRequest := none
  response : Option AiMessageResponse := none
  item : Option AIMessageItem := none
deriving DecidableEq, Repr

/-- pydantic call AIMessageModel(): all fields have defaults. -/
def AIMessageModel.py_new : AIMessageModel := {}

/-- AiMessageCreate (ai_message_model.py lines 13-19): meta has
Field with default_factory dict, every other field is required. -/
structure AiMessageCreate where
  session_id : Nat
  tenant_id : String
  user_id : String
  role : AiRole
  content : String
  meta : Meta := []
deriving DecidableEq, Repr

/-- pydantic construction of AiMessageCreate from keyword arguments, with
meta possibly omitted (none): default_factory dict yields the empty
mapping. -/
def AiMessageCreate.py_mk (session_id : Nat) (tenant_id user_id : String)
    (role : AiRole) (content : String) (meta : Option Meta) : AiMessageCreate :=
  { session_id := session_id, tenant_id := tenant_id, user_id := user_id,
    role := role, content := content, meta := meta.getD [] }

/-- APIValidation.set_inv_msg (api_validation.py lines 16-20): sets the
invalid flag and the message on the prompt model. -/
def APIValidation.set_inv_msg (model : PromptModel) (msg : String) : PromptModel :=
  { model with IsInvalid := true, Message := some (.str msg) }

/-- The try block of APIValidation.validate_prompt_request (api_validation.py
lines 24-33), over the model constructed before the try.  No step of this
block can raise: PromptRequest() succeeds (all fields defaulted) and the
question test is a plain attribute comparison. -/
def APIValidation.validate_prompt_request_body (request : Option PromptRequest)
    (model : PromptModel) : Except PyErr PromptModel :=
  match request with
  | none =>
      .ok (APIValidation.set_inv_msg { model with request := some PromptRequest.py_new }
            "Request is None")
  | some r =>
      if r.question = none ∨ r.question = some "" then
        .ok (APIValidation.set_inv_msg model "Question is None or empty")
      else
        .ok model

/-- APIValidation.validate_prompt_request (api_validation.py lines 22-36):
constructs the model, runs the try block, and converts any exception into a
rejection carrying str(ex). -/
def APIValidation.validate_prompt_request (request : Option PromptRequest) : PromptModel :=
  let model := PromptModel.py_new
  match APIValidation.validate_prompt_request_body request model with
  | .ok m => m
  | .error ex => APIValidation.set_inv_msg model (PyErr.text ex)

/-- AIMessageValidation.set_inv_msg (ai_message_validation.py lines 10-13). -/
def AIMessageValidation.set_inv_msg (model : AIMessageModel) (msg : String) : AIMessageModel :=
  { model with IsInvalid := true, Message := some (.str msg) }

/-- The try block of AIMessageValidation.validate_request
(ai_message_validation.py lines 17-25).  In the None-request branch the
source executes model.request = AiMessageRequest(); that bare constructor
raises ValidationError (all eight fields required) before the assignment and
before the Request-is-None message line are reached. -/
def AIMessageValidation.validate_request_body (request : Option AiMessageRequest)
    (model : AIMessageModel) : Except PyErr AIMessageModel :=
  match request with
  | none =>
      match AiMessageRequest.py_new with
      | .error e => .error e
      | .ok fresh =>
          .ok (AIMessageValidation.set_inv_msg { model with request := some fresh }
                "Request is None")
  | some r =>
      if r.content = none then
        .ok (AIMessageValidation.set_inv_msg model "Content is None")
      else
        .ok model

/-- AIMessageValidation.validate_request (ai_message_validation.py lines
15-28): constructs the model, runs the try block, and converts any exception
into a rejection carrying str(ex). -/
def AIMessageValidation.validate_request (request : Option AiMessageRequest) : AIMessageModel :=
  let model := AIMessageModel.py_new
  match AIMessageValidation.validate_request_body request model with
  | .ok m => m
  | .error ex => AIMessageValidation.set_inv_msg model (PyErr.text ex)

/-- The field-copy tail of MapConv.get_item_by_request (map_conv.py lines
20-27): each of the eight shared fields of the destination is assigned the
corresponding field of the source, verbatim; nothing else on the
destination is touched. -/
def MapConv.copy_fields (source : AiMessageRequest) (destination : AIMessageItem) : AIMessageItem :=
  { destination with
      message_id := source.message_id
      session_id := source.session_id
      tenant_id := source.tenant_id
      user_id := source.user_id
      role := source.role
      content := source.content
      meta := source.meta
      created_at := source.created_at }

/-- The part of MapConv.get_item_by_request after the destination has been
resolved (map_conv.py lines 17-29): the None source raises ValueError,
otherwise the fields are copied and the destination returned. -/
def MapConv.map_into (source : Option AiMessageRequest) (destination : AIMessageItem) :
    Except PyErr AIMessageItem :=
  match source with
  | none => .error (.valueError "AiMessageRequest cannot be None")
  | some s => .ok (MapConv.copy_fields s destination)

/-- MapConv.get_item_by_request (map_conv.py lines 8-29).  When the optional
destination argument is omitted the source executes
destination = AIMessageItem() first (lines 14-15), and that bare constructor
raises ValidationError, before the source-is-None test on line 17 runs. -/
def MapConv.get_item_by_request (source : Option AiMessageRequest)
    (destination : Option AIMessageItem) : Except PyErr AIMessageItem :=
  match destination with
  | none =>
      match AIMessageItem.py_new with
      | .error e => .error e
      | .ok d => MapConv.map_into source d
  | some d => MapConv.map_into source d

/-- The module-level store of api_buffer_memory.py (line 52): a dict from
session id to InMemoryChatMessageHistory object.  An object is modelled as
its allocation number paired with its message list, and nextObj is the
allocation counter, so that object identity ("the same stored history
object") is expressible; a fresh InMemoryChatMessageHistory() has the next
allocation number and an empty message list. -/
structure HistStore where
  nextObj : Nat
  entries : List (String × (Nat × List String))
deriving DecidableEq, Repr

/-- get_session_history (api_buffer_memory.py lines 53-56): if the session
id is not a key of the store, a fresh empty history is inserted under it;
the entry stored under the key is then returned.  The store is module
state, threaded explicitly. -/
def get_session_history (session_id : String) (st : HistStore) :
    (Nat × List String) × HistStore :=
  if (st.entries.lookup session_id).isSome then
    ((st.entries.lookup session_id).getD (0, []), st)
  else
    let st2 : HistStore :=
      { nextObj := st.nextObj + 1,
        entries := (session_id, (st.nextObj, [])) :: st.entries }
    ((st2.entries.lookup session_id).getD (0, []), st2)

/-- The try block of the mock handler (api_buffer_memory.py lines 29-32):
model construction and the two attribute assignments; none of these steps
can raise (PromptModel() has all fields defaulted, and the assignments are
plain unvalidated attribute sets). -/
def post_mock_body (request : PromptRequest) (response : PromptResponse) :
    Except PyErr PromptModel :=
  let model := PromptModel.py_new
  .ok { model with request := some request, response := some response }

/-- The POST /mock handler post_default (api_buffer_memory.py lines 26-35):
builds a fresh response, runs the try block, writes the error dict onto the
response on exception, and returns the response. -/
def post_mock (request : PromptRequest) : PromptResponse :=
  let response := PromptResponse.py_new
  match post_mock_body request response with
  | .ok _ => response
  | .error ex => { response with Message := some (.errDict (PyErr.text ex)) }

/-- The mock handler as an invocation against the module state: its body
reads and writes no module state (the store dict is untouched), so the
threaded store passes through. -/
def post_mock_call (request : PromptRequest) (st : HistStore) : PromptResponse × HistStore :=
  (post_mock request, st)

/-- The try block of the prompt handler (api_buffer_memory.py lines 42-46):
the model variable is rebound to the validator result, then the request and
the fresh response are attached to that model.  The response object itself
is never written in this block, and no step can raise. -/
def post_prompt_body (request : PromptRequest) (response : PromptResponse) :
    Except PyErr PromptModel :=
  let _model := PromptModel.py_new
  let model := APIValidation.validate_prompt_request (some request)
  .ok { model with request := some request, response := some response }

/-- The POST /prompt handler post_default (api_buffer_memory.py lines
38-49): builds a fresh response, runs the try block (which runs the
validator and discards its outcome into the local model variable), and
returns the fresh response. -/
def post_prompt (request : PromptRequest) : PromptResponse :=
  let response := PromptResponse.py_new
  match post_prompt_body request response with
  | .ok _ => response
  | .error ex => { response with Message := some (.errDict (PyErr.text ex)) }

/-- Outcome of the request handling that consumes a yielded database
session: either a normal return or an exception thrown back into the
generator at the yield point. -/
inductive BodyOutcome (α : Type) where
  | ret (a : α)
  | raised (e : PyErr)
deriving DecidableEq, Repr

/-- Result of one full pass through a session-scoped dependency: the
consumer outcome, and whether the session was closed when the dependency
finished. -/
structure DbCall (α : Type) where
  outcome : BodyOutcome α
  sessionClosed : Bool
deriving DecidableEq, Repr

/-- get_pgsql_db (pgsql_connection.py lines 15-20): db = pg_sql_session();
try: yield db; finally: db.close().  The consumer runs between the yield
and the resumption; whether it returns or raises, the finally clause closes
the session before the call completes. -/
def get_pgsql_db_run (handle : Nat) (body : Nat → BodyOutcome α) : DbCall α :=
  let db := handle
  match body db with
  | .ret a => { outcome := .ret a, sessionClosed := true }
  | .raised e => { outcome := .raised e, sessionClosed := true }

/-- get_pgsql_db_async (pgsql_async_connection.py lines 20-22): async with
pgsql_session() as session: yield session.  The async context manager exit
closes the session on both the normal and the exceptional path. -/
def get_pgsql_db_async_run (handle : Nat) (body : Nat → BodyOutcome α) : DbCall α :=
  let session := handle
  match body session with
  | .ret a => { outcome := .ret a, sessionClosed := true }
  | .raised e => { outcome := .raised e, sessionClosed := true }

/-- The CHECK constraint ai_message_role_check of AIMessageEntity
(ai_message_entity.py lines 12-15): role IN (system, user, assistant,
tool), evaluated by the database on every row. -/
def ai_message_role_check (role : String) : Bool :=
  role = "system" || role = "user" || role = "assistant" || role = "tool"

/-- Column values supplied by an INSERT into conv.ai_message; none means
the column is omitted so the server default of AIMessageEntity applies. -/
structure AIMessageRowInsert where
  message_id : Option Nat
  session_id : Nat
  tenant_id : String
  user_id : String
  role : String
  content : String
  meta : Option Meta
  created_at : Option Nat
deriving DecidableEq, Repr

/-- A persisted row of conv.ai_message: every column NOT NULL. -/
structure AIMessageRow where
  message_id : Nat
  session_id : Nat
  tenant_id : String
  user_id : String
  role : String
  content : String
  meta : Meta
  created_at : Nat
deriving DecidableEq, Repr

/-- The server defaults of AIMessageEntity (ai_message_entity.py lines
18-41): message_id gen_random_uuid(), meta the empty jsonb object, and
created_at now(), each applied exactly when the column was omitted from the
insert.  gen_uuid and now stand for the values the server draws. -/
def apply_server_defaults (ins : AIMessageRowInsert) (gen_uuid now : Nat) : AIMessageRow :=
  { message_id := ins.message_id.getD gen_uuid,
    session_id := ins.session_id,
    tenant_id := ins.tenant_id,
    user_id := ins.user_id,
    role := ins.role,
    content := ins.content,
    meta := ins.meta.getD [],
    created_at := ins.created_at.getD now }

/-- The scenario request of the spec: POST /prompt with question the empty
string. -/
def empty_question_request : PromptRequest := { question := some "" }

/-- A message request whose content is the empty string, otherwise fully
populated. -/
def empty_content_request : AiMessageRequest :=
  { message_id := 1, session_id := 2, tenant_id := "t", user_id := "u",
    role := .user, content := some "", meta := [], created_at := 0 }

/-- A message request whose content attribute is None. -/
def none_content_request : AiMessageRequest :=
  { message_id := 0, session_id := 0, tenant_id := "", user_id := "",
    role := .system, content := none, meta := [], created_at := 0 }

/-- A fully populated message request used as a concrete mapping source. -/
def sample_message_request : AiMessageRequest :=
  { message_id := 7, session_id := 8, tenant_id := "tenant", user_id := "user-1",
    role := .assistant, content := some "hello", meta := [("k", "v")], created_at := 5 }

/-- A destination item handed to the mapper explicitly. -/
def sample_destination_item : AIMessageItem :=
  { message_id := 0, session_id := 0, tenant_id := "", user_id := "",
    role := .system, content := none, meta := [], created_at := 0 }

/-- C1: on the empty-question request the validator does produce the
rejection model (IsInvalid true, message Question is None or empty), but the
POST /prompt handler discards that model and returns the untouched fresh
PromptResponse, whose IsInvalid is false and whose Message is empty; the
claimed response shape is never produced. -/
theorem prompt_endpoint_drops_validator_outcome_on_empty_question :
    (APIValidation.validate_prompt_request (some empty_question_request)).IsInvalid = true
    ∧ (APIValidation.validate_prompt_request (some empty_question_request)).Message
        = some (.str "Question is None or empty")
    ∧ (post_prompt empty_question_request).IsInvalid = false
    ∧ (post_prompt empty_question_request).Message = none := by
  refine ⟨rfl, rfl, rfl, rfl⟩

/-- C2 counterexample: a message request whose content is the empty string
is accepted by AIMessageValidation.validate_request (no rejection, no
message), refuting the claim that an empty required field is rejected
uniformly across both features. -/
theorem empty_content_message_request_is_accepted :
    (AIMessageValidation.validate_request (some empty_content_request)).IsInvalid = false
    ∧ (AIMessageValidation.validate_request (some empty_content_request)).Message = none := by
  refine ⟨rfl, rfl⟩

/-- C2 amended: for prompts a question that is None or the empty string is
rejected with the message naming the field; for messages only a None
content is rejected (message Content is None) while an empty-string content
is accepted, so the empty-string half of the rule holds only for the prompt
feature. -/
theorem required_field_rejection_per_feature :
    (∀ r : PromptRequest, (r.question = none ∨ r.question = some "") →
        (APIValidation.validate_prompt_request (some r)).IsInvalid = true
        ∧ (APIValidation.validate_prompt_request (some r)).Message
            = some (.str "Question is None or empty"))
    ∧ (∀ m : AiMessageRequest, m.content = none →
        (AIMessageValidation.validate_request (some m)).IsInvalid = true
        ∧ (AIMessageValidation.validate_request (some m)).Message
            = some (.str "Content is None"))
    ∧ (∀ m : AiMessageRequest, m.content = some "" →
        (AIMessageValidation.validate_request (some m)).IsInvalid = false) := by
  refine ⟨?_, ?_, ?_⟩
  · intro r h
    simp [APIValidation.validate_prompt_request, APIValidation.validate_prompt_request_body,
      APIValidation.set_inv_msg, if_pos h]
  · intro m h
    simp [AIMessageValidation.validate_request, AIMessageValidation.validate_request_body,
      AIMessageValidation.set_inv_msg, h]
  · intro m h
    simp [AIMessageValidation.validate_request, AIMessageValidation.validate_request_body,
      AIMessageValidation.set_inv_msg, h, AIMessageModel.py_new]

/-- C2 witness: the amended theorem applied at the all-None prompt request,
at a None-content message request, and at an empty-content message
request. -/
theorem required_field_rejection_per_feature_witness :
    ((PromptRequest.py_new.question = none ∨ PromptRequest.py_new.question = some "")
      ∧ (APIValidation.validate_prompt_request (some PromptRequest.py_new)).IsInvalid = true)
    ∧ (none_content_request.content = none
      ∧ (AIMessageValidation.validate_request (some none_content_request)).IsInvalid = true)
    ∧ (empty_content_request.content = some ""
      ∧ (AIMessageValidation.validate_request (some empty_content_request)).IsInvalid = false) :=
  ⟨⟨Or.inl rfl, (required_field_rejection_per_feature.1 PromptRequest.py_new (Or.inl rfl)).1⟩,
   ⟨rfl, (required_field_rejection_per_feature.2.1 none_content_request rfl).1⟩,
   ⟨rfl, required_field_rejection_per_feature.2.2 empty_content_request rfl⟩⟩

/-- C3: called without an explicit destination (the default of the optional
argument), the mapper raises the pydantic ValidationError from the bare
AIMessageItem() constructor instead of returning the copied item; when a
destination is supplied the eight shared fields are copied verbatim, which
is the behaviour the claim describes. -/
theorem mapper_default_destination_construction_fails :
    MapConv.get_item_by_request (some sample_message_request) none
      = .error (.validationError "8 validation errors for AIMessageItem: field required")
    ∧ MapConv.get_item_by_request (some sample_message_request) (some sample_destination_item)
      = .ok { toItemBase := {}, message_id := 7, session_id := 8, tenant_id := "tenant",
              user_id := "user-1", role := .assistant, content := some "hello",
              meta := [("k", "v")], created_at := 5 } := by
  refine ⟨rfl, rfl⟩

/-- C4: each validator is a total function from its (possibly missing)
request to a model, because the try block around its body routes every
exception into the except handler, which returns the model with the invalid
flag set and the message equal to str(ex); in particular for a None message
request the bare AiMessageRequest() constructor fails inside the try block
and the returned rejection carries that failure text, while for a None
prompt request the body itself produces the Request is None rejection. -/
theorem validators_total_and_convert_failures :
    (∀ request : Option PromptRequest,
        (∃ m, APIValidation.validate_prompt_request_body request PromptModel.py_new = .ok m
            ∧ APIValidation.validate_prompt_request request = m)
        ∨ (∃ e, APIValidation.validate_prompt_request_body request PromptModel.py_new = .error e
            ∧ (APIValidation.validate_prompt_request request).IsInvalid = true
            ∧ (APIValidation.validate_prompt_request request).Message
                = some (.str (PyErr.text e))))
    ∧ (∀ request : Option AiMessageRequest,
        (∃ m, AIMessageValidation.validate_request_body request AIMessageModel.py_new = .ok m
            ∧ AIMessageValidation.validate_request request = m)
        ∨ (∃ e, AIMessageValidation.validate_request_body request AIMessageModel.py_new = .error e
            ∧ (AIMessageValidation.validate_request request).IsInvalid = true
            ∧ (AIMessageValidation.validate_request request).Message
                = some (.str (PyErr.text e))))
    ∧ (AIMessageValidation.validate_request none).IsInvalid = true
    ∧ (AIMessageValidation.validate_request none).Message
        = some (.str "8 validation errors for AiMessageRequest: field required")
    ∧ (APIValidation.validate_prompt_request none).IsInvalid = true
    ∧ (APIValidation.validate_prompt_request none).Message = some (.str "Request is None") := by
  refine ⟨?_, ?_, rfl, rfl, rfl, rfl⟩
  · intro request
    cases h : APIValidation.validate_prompt_request_body request PromptModel.py_new with
    | ok m =>
        exact Or.inl ⟨m, rfl, by simp [APIValidation.validate_prompt_request, h]⟩
    | error e =>
        refine Or.inr ⟨e, rfl, ?_, ?_⟩ <;>
          simp [APIValidation.validate_prompt_request, APIValidation.set_inv_msg, h]
  · intro request
    cases h : AIMessageValidation.validate_request_body request AIMessageModel.py_new with
    | ok m =>
        exact Or.inl ⟨m, rfl, by simp [AIMessageValidation.validate_request, h]⟩
    | error e =>
        refine Or.inr ⟨e, rfl, ?_, ?_⟩ <;>
          simp [AIMessageValidation.validate_request, AIMessageValidation.set_inv_msg, h]

/-- C5: with a missing (None) source the mapper never returns an item, for
every value of the optional destination argument: with a supplied
destination it raises ValueError AiMessageRequest cannot be None, and with
the destination omitted it raises the pydantic ValidationError from the
bare AIMessageItem() constructor, which is also a ValueError subclass; in
both cases the result is an error, never an ok item. -/
theorem mapper_rejects_missing_source :
    (∀ d : AIMessageItem, MapConv.get_item_by_request none (some d)
        = .error (.valueError "AiMessageRequest cannot be None"))
    ∧ MapConv.get_item_by_request none none
        = .error (.validationError "8 validation errors for AIMessageItem: field required")
    ∧ (∀ destination : Option AIMessageItem, ∃ e : PyErr,
        MapConv.get_item_by_request none destination = .error e
        ∧ ∀ it : AIMessageItem, MapConv.get_item_by_request none destination ≠ .ok it) := by
  refine ⟨fun d => rfl, rfl, ?_⟩
  intro destination
  cases destination with
  | none =>
      exact ⟨.validationError "8 validation errors for AIMessageItem: field required",
             rfl, fun it h => by simp [MapConv.get_item_by_request, AIMessageItem.py_new] at h⟩
  | some d =>
      exact ⟨.valueError "AiMessageRequest cannot be None",
             rfl, fun it h => by simp [MapConv.get_item_by_request, MapConv.map_into] at h⟩

/-- C6: the mock handler reads and writes no module state, its try block
cannot fail, and it always returns the freshly constructed response: two
invocations with the same request (the second on the state left by the
first) return structurally identical responses with an empty error, the
threaded store passes through unchanged, and the response equals the
default PromptResponse, so message.error could be written only on an
internal failure of the body, which never occurs.  A handler that returns
normally is serialized by the framework with status 200. -/
theorem mock_endpoint_pure_and_error_free :
    ∀ (request : PromptRequest) (st : HistStore),
      (post_mock_call request (post_mock_call request st).2).1 = (post_mock_call request st).1
      ∧ (post_mock_call request st).2 = st
      ∧ (post_mock_call request st).1.Message = none
      ∧ (post_mock_call request st).1.IsInvalid = false
      ∧ post_mock request = PromptResponse.py_new
      ∧ post_mock_body request PromptResponse.py_new
          = .ok { PromptModel.py_new with
                    request := some request, response := some PromptResponse.py_new } := by
  intro request st
  exact ⟨rfl, rfl, rfl, rfl, rfl, rfl⟩

/-- C7: the pydantic Literal annotation and the database CHECK constraint
accept exactly the same four role strings; every value of the AiRole type,
hence the role field of every constructed AiMessageRequest, AiMessageCreate
and AIMessageItem, passes the CHECK, and any other string fails both the
pydantic parse and the CHECK constraint. -/
theorem role_fixed_enumeration :
    (∀ s : String, (∃ r, parse_ai_role s = .ok r) ↔ ai_message_role_check s = true)
    ∧ (∀ s : String, ai_message_role_check s = true ↔
        (s = "system" ∨ s = "user" ∨ s = "assistant" ∨ s = "tool"))
    ∧ (∀ r : AiRole, parse_ai_role (AiRole.toText r) = .ok r)
    ∧ (∀ m : AiMessageRequest, ai_message_role_check (AiRole.toText m.role) = true)
    ∧ (∀ c : AiMessageCreate, ai_message_role_check (AiRole.toText c.role) = true)
    ∧ (∀ it : AIMessageItem, ai_message_role_check (AiRole.toText it.role) = true) := by
  have hcheck : ∀ s : String, ai_message_role_check s = true ↔
      (s = "system" ∨ s = "user" ∨ s = "assistant" ∨ s = "tool") := by
    intro s
    simp [ai_message_role_check, Bool.or_eq_true, decide_eq_true_eq, or_assoc]
  have hrole : ∀ r : AiRole, parse_ai_role (AiRole.toText r) = .ok r := by
    intro r
    cases r <;> rfl
  refine ⟨?_, hcheck, hrole,
    fun m => (hcheck _).mpr ?_, fun c => (hcheck _).mpr ?_, fun it => (hcheck _).mpr ?_⟩
  · intro s
    rw [hcheck]
    constructor
    · rintro ⟨r, hr⟩
      by_cases h1 : s = "system"
      · exact Or.inl h1
      by_cases h2 : s = "user"
      · exact Or.inr (Or.inl h2)
      by_cases h3 : s = "assistant"
      · exact Or.inr (Or.inr (Or.inl h3))
      by_cases h4 : s = "tool"
      · exact Or.inr (Or.inr (Or.inr h4))
      simp [parse_ai_role, h1, h2, h3, h4] at hr
    · rintro (h | h | h | h) <;> subst h <;> exact ⟨_, rfl⟩
  · cases hm : m.role <;> simp [AiRole.toText]
  · cases hc : c.role <;> simp [AiRole.toText]
  · cases hi : it.role <;> simp [AiRole.toText]

/-- C8: whatever the consumer of the yielded session does, return normally
or raise, the finally clause of get_pgsql_db (and the context-manager exit
of get_pgsql_db_async) closes the session before the call completes, and
the consumer outcome is passed through unchanged. -/
theorem session_scope_always_closes :
    ∀ (α : Type) (handle : Nat) (body : Nat → BodyOutcome α),
      (get_pgsql_db_run handle body).sessionClosed = true
      ∧ (get_pgsql_db_run handle body).outcome = body handle
      ∧ (get_pgsql_db_async_run handle body).sessionClosed = true
      ∧ (get_pgsql_db_async_run handle body).outcome = body handle := by
  intro α handle body
  cases hb : body handle <;>
    simp [get_pgsql_db_run, get_pgsql_db_async_run, hb]

/-- C9: constructing an AiMessageCreate without supplying meta yields the
empty mapping (the default_factory of the field, applied at construction),
an ai_message row inserted without the meta column receives the server
default empty jsonb object, and the mapper itself never defaults: it copies
meta (and every other shared field) verbatim from the source request. -/
theorem meta_defaults_at_construction_not_mapper :
    (∀ (sid : Nat) (t u : String) (r : AiRole) (c : String),
        (AiMessageCreate.py_mk sid t u r c none).meta = [])
    ∧ (∀ (sid : Nat) (t u rl c : String) (g n : Nat),
        (apply_server_defaults
          { message_id := none, session_id := sid, tenant_id := t, user_id := u,
            role := rl, content := c, meta := none, created_at := none } g n).meta = [])
    ∧ (∀ (s : AiMessageRequest) (d : AIMessageItem),
        MapConv.get_item_by_request (some s) (some d) = .ok (MapConv.copy_fields s d)
        ∧ (MapConv.copy_fields s d).meta = s.meta) := by
  exact ⟨fun _ _ _ _ _ => rfl, fun _ _ _ _ _ _ _ => rfl, fun s d => ⟨rfl, rfl⟩⟩

/-- C10: looking up a session history is idempotent on the module store:
when the session id is absent a fresh empty history object is allocated and
inserted under the key, when it is present the stored object is returned
with the store untouched, and in either case a second lookup with the same
id returns the very history object the first lookup produced and leaves the
store exactly as the first lookup left it. -/
theorem session_history_lookup_idempotent :
    ∀ (sid : String) (st : HistStore),
      ((get_session_history sid (get_session_history sid st).2).1
          = (get_session_history sid st).1
        ∧ (get_session_history sid (get_session_history sid st).2).2
          = (get_session_history sid st).2)
      ∧ (st.entries.lookup sid = none →
          get_session_history sid st
            = ((st.nextObj, []),
               { nextObj := st.nextObj + 1,
                 entries := (sid, (st.nextObj, [])) :: st.entries }))
      ∧ (∀ h, st.entries.lookup sid = some h → get_session_history sid st = (h, st)) := by
  intro sid st
  cases hl : st.entries.lookup sid with
  | some v =>
      refine ⟨?_, by simp [hl], ?_⟩
      · have h1 : get_session_history sid st = (v, st) := by
          simp [get_session_history, hl]
        rw [h1]
        simp [get_session_history, hl]
      · intro h hh
        cases hh
        simp [get_session_history, hl]
  | none =>
      have h1 : get_session_history sid st
          = ((st.nextObj, []),
             { nextObj := st.nextObj + 1,
               entries := (sid, (st.nextObj, [])) :: st.entries }) := by
        simp [get_session_history, hl, List.lookup]
      refine ⟨?_, fun _ => h1, by simp [hl]⟩
      rw [h1]
      simp [get_session_history, List.lookup]

/-- C10 witness: the idempotence theorem applied at a store that does not
contain the key and at the store produced by the first lookup, which
does. -/
theorem session_history_lookup_idempotent_witness :
    ((HistStore.mk 0 []).entries.lookup "s1" = none
      ∧ get_session_history "s1" (HistStore.mk 0 [])
          = ((0, []), HistStore.mk 1 [("s1", (0, []))])) 
    ∧ ((HistStore.mk 1 [("s1", (0, []))]).entries.lookup "s1" = some (0, [])
      ∧ get_session_history "s1" (HistStore.mk 1 [("s1", (0, []))])
          = ((0, []), HistStore.mk 1 [("s1", (0, []))])) :=
  ⟨⟨rfl, (session_history_lookup_idempotent "s1" (HistStore.mk 0 [])).2.1 rfl⟩,
   ⟨rfl, (session_history_lookup_idempotent "s1"
            (HistStore.mk 1 [("s1", (0, []))])).2.2 (0, []) rfl⟩⟩
